import Mathlib

/-!
Verification of the bytemuck casting/validation core (`src/lib.rs`).

The runtime behaviour of every cast function is determined by the sizes and
alignments of the two participating types together with the address and
length of the input.  We embed a type as a `TypeDesc` (its `size_of` and
`align_of`), a slice as its start address plus element count, a reference as
its address, and an owned value as its list of bytes.  Each Rust function is
translated branch-for-branch; a panic (`something_went_wrong` or
`unreachable!`) is modelled as an `Except.error Panic` result.
-/

namespace Bytemuck

/-- The `(size_of::<T>(), align_of::<T>())` pair that drives every check. -/
structure TypeDesc where
  size : Nat
  align : Nat
  deriving DecidableEq, Repr

/-- A slice `&[A]`: start address and length in elements of `A`. -/
structure Slice where
  addr : Nat
  len : Nat
  deriving DecidableEq, Repr

/-- `enum PodCastError` from `src/lib.rs`. -/
inductive PodCastError where
  | TargetAlignmentGreaterAndInputNotAligned
  | OutputSliceWouldHaveSlop
  | SizeMismatch
  | AlignmentMismatch
  deriving DecidableEq, Repr

/-- How a panicking entry point terminates: `something_went_wrong(src, e)`
carries the operation name and the error kind; `unreachableArm` models the
`unreachable!()` arms. -/
inductive Panic where
  | wentWrong (src : String) (e : PodCastError)
  | unreachableArm
  deriving DecidableEq, Repr

/-- The descriptor of `u8`: size 1, alignment 1. -/
def byteDesc : TypeDesc := ⟨1, 1⟩

/-- `try_cast::<A, B>`: a value is its byte pattern; `transmute!` keeps it. -/
def try_cast (A B : TypeDesc) (v : List Nat) : Except PodCastError (List Nat) :=
  if A.size = B.size then
    Except.ok v
  else
    Except.error PodCastError.SizeMismatch

/-- `try_cast_ref::<A, B>`: the reference is its address. -/
def try_cast_ref (A B : TypeDesc) (addr : Nat) : Except PodCastError Nat :=
  if B.align > A.align ∧ addr % B.align ≠ 0 then
    Except.error PodCastError.TargetAlignmentGreaterAndInputNotAligned
  else if B.size = A.size then
    Except.ok addr
  else
    Except.error PodCastError.SizeMismatch

/-- `try_cast_mut::<A, B>`: identical checks on the address of `&mut A`. -/
def try_cast_mut (A B : TypeDesc) (addr : Nat) : Except PodCastError Nat :=
  if B.align > A.align ∧ addr % B.align ≠ 0 then
    Except.error PodCastError.TargetAlignmentGreaterAndInputNotAligned
  else if B.size = A.size then
    Except.ok addr
  else
    Except.error PodCastError.SizeMismatch

/-- `try_cast_slice::<A, B>`.  `size_of_val(a) = a.len * size_of::<A>()`. -/
def try_cast_slice (A B : TypeDesc) (a : Slice) :
    Except PodCastError Slice :=
  if B.align > A.align ∧ a.addr % B.align ≠ 0 then
    Except.error PodCastError.TargetAlignmentGreaterAndInputNotAligned
  else if B.size = A.size then
    Except.ok ⟨a.addr, a.len⟩
  else if A.size = 0 ∨ B.size = 0 then
    Except.error PodCastError.SizeMismatch
  else if a.len * A.size % B.size = 0 then
    Except.ok ⟨a.addr, a.len * A.size / B.size⟩
  else
    Except.error PodCastError.OutputSliceWouldHaveSlop

/-- `try_cast_slice_mut::<A, B>`: same branch structure on `&mut [A]`. -/
def try_cast_slice_mut (A B : TypeDesc) (a : Slice) :
    Except PodCastError Slice :=
  if B.align > A.align ∧ a.addr % B.align ≠ 0 then
    Except.error PodCastError.TargetAlignmentGreaterAndInputNotAligned
  else if B.size = A.size then
    Except.ok ⟨a.addr, a.len⟩
  else if A.size = 0 ∨ B.size = 0 then
    Except.error PodCastError.SizeMismatch
  else if a.len * A.size % B.size = 0 then
    Except.ok ⟨a.addr, a.len * A.size / B.size⟩
  else
    Except.error PodCastError.OutputSliceWouldHaveSlop

/-- `try_from_bytes::<T>`: input is a byte slice, output the address of `&T`. -/
def try_from_bytes (T : TypeDesc) (s : Slice) : Except PodCastError Nat :=
  if s.len ≠ T.size then
    Except.error PodCastError.SizeMismatch
  else if s.addr % T.align ≠ 0 then
    Except.error PodCastError.TargetAlignmentGreaterAndInputNotAligned
  else
    Except.ok s.addr

/-- `try_from_bytes_mut::<T>`: same checks on `&mut [u8]`. -/
def try_from_bytes_mut (T : TypeDesc) (s : Slice) : Except PodCastError Nat :=
  if s.len ≠ T.size then
    Except.error PodCastError.SizeMismatch
  else if s.addr % T.align ≠ 0 then
    Except.error PodCastError.TargetAlignmentGreaterAndInputNotAligned
  else
    Except.ok s.addr

/-- `bytes_of::<T>`: a ZST yields the literal `&[]` (a dangling slice at the
alignment-1 address, length 0), otherwise `try_cast_slice::<T, u8>` on the
one-element slice `core::slice::from_ref(t)`; its `Err` arm is
`unreachable!()`. -/
def bytes_of (T : TypeDesc) (addr : Nat) : Except Panic Slice :=
  if T.size = 0 then
    Except.ok ⟨1, 0⟩
  else
    match try_cast_slice T byteDesc ⟨addr, 1⟩ with
    | Except.ok s => Except.ok s
    | Except.error _ => Except.error Panic.unreachableArm

/-- `bytes_of_mut::<T>`: same structure via `try_cast_slice_mut::<T, u8>`. -/
def bytes_of_mut (T : TypeDesc) (addr : Nat) : Except Panic Slice :=
  if T.size = 0 then
    Except.ok ⟨1, 0⟩
  else
    match try_cast_slice_mut T byteDesc ⟨addr, 1⟩ with
    | Except.ok s => Except.ok s
    | Except.error _ => Except.error Panic.unreachableArm

/-- `cast::<A, B>`: checks the sizes itself and transmutes, panicking on a
mismatch. -/
def cast (A B : TypeDesc) (v : List Nat) : Except Panic (List Nat) :=
  if A.size = B.size then
    Except.ok v
  else
    Except.error (Panic.wentWrong "cast" PodCastError.SizeMismatch)

/-- `cast_ref::<A, B>`: a fast path whose `Err` arm is `unreachable!()` when
sizes match and `align_of::<A>() >= align_of::<B>()`, else the panicking
wrapper around `try_cast_ref`. -/
def cast_ref (A B : TypeDesc) (addr : Nat) : Except Panic Nat :=
  if A.size = B.size ∧ A.align ≥ B.align then
    match try_cast_ref A B addr with
    | Except.ok b => Except.ok b
    | Except.error _ => Except.error Panic.unreachableArm
  else
    match try_cast_ref A B addr with
    | Except.ok b => Except.ok b
    | Except.error e => Except.error (Panic.wentWrong "cast_ref" e)

/-- `cast_mut::<A, B>`: same two-path structure over `try_cast_mut`. -/
def cast_mut (A B : TypeDesc) (addr : Nat) : Except Panic Nat :=
  if A.size = B.size ∧ A.align ≥ B.align then
    match try_cast_mut A B addr with
    | Except.ok b => Except.ok b
    | Except.error _ => Except.error Panic.unreachableArm
  else
    match try_cast_mut A B addr with
    | Except.ok b => Except.ok b
    | Except.error e => Except.error (Panic.wentWrong "cast_mut" e)

/-- `cast_slice::<A, B>`: thin panicking wrapper over `try_cast_slice`. -/
def cast_slice (A B : TypeDesc) (a : Slice) : Except Panic Slice :=
  match try_cast_slice A B a with
  | Except.ok b => Except.ok b
  | Except.error e => Except.error (Panic.wentWrong "cast_slice" e)

/-- `cast_slice_mut::<A, B>`: thin panicking wrapper over
`try_cast_slice_mut`. -/
def cast_slice_mut (A B : TypeDesc) (a : Slice) : Except Panic Slice :=
  match try_cast_slice_mut A B a with
  | Except.ok b => Except.ok b
  | Except.error e => Except.error (Panic.wentWrong "cast_slice_mut" e)

/-- `from_bytes::<T>`: thin panicking wrapper over `try_from_bytes`. -/
def from_bytes (T : TypeDesc) (s : Slice) : Except Panic Nat :=
  match try_from_bytes T s with
  | Except.ok t => Except.ok t
  | Except.error e => Except.error (Panic.wentWrong "from_bytes" e)

/-- `from_bytes_mut::<T>`: thin panicking wrapper over `try_from_bytes_mut`. -/
def from_bytes_mut (T : TypeDesc) (s : Slice) : Except Panic Nat :=
  match try_from_bytes_mut T s with
  | Except.ok t => Except.ok t
  | Except.error e => Except.error (Panic.wentWrong "from_bytes_mut" e)

/-- The success projection shared by both result forms. -/
def toOk {ε α : Type} : Except ε α → Option α
  | Except.ok a => some a
  | Except.error _ => none

/-- Does a structured result report `AlignmentMismatch`? -/
def isErrAlignmentMismatch {α : Type} : Except PodCastError α → Bool
  | Except.error PodCastError.AlignmentMismatch => true
  | _ => false

/-- Does a panicking result report `AlignmentMismatch` in its message? -/
def panicsAlignmentMismatch {α : Type} : Except Panic α → Bool
  | Except.error (Panic.wentWrong _ PodCastError.AlignmentMismatch) => true
  | _ => false

/-- Did a panicking entry point hit an `unreachable!()` arm? -/
def hitUnreachableArm {α : Type} : Except Panic α → Bool
  | Except.error Panic.unreachableArm => true
  | _ => false

/-- The guard under which `try_cast_slice` evaluates `% size_of::<B>()` and
`/ size_of::<B>()`: alignment check passed, sizes differ, neither is zero. -/
def reachesDivisionBranch (A B : TypeDesc) (a : Slice) : Prop :=
  ¬(B.align > A.align ∧ a.addr % B.align ≠ 0) ∧ B.size ≠ A.size ∧
    ¬(A.size = 0 ∨ B.size = 0)

instance (A B : TypeDesc) (a : Slice) :
    Decidable (reachesDivisionBranch A B a) := by
  unfold reachesDivisionBranch
  infer_instance

/-- C1: for slice casts whose input is aligned for `B` and whose element
sizes differ, a zero-sized side yields `SizeMismatch` at every length
(including 0); with both sizes nonzero the cast succeeds with output length
`len * size A / size B` exactly when `size B` divides `len * size A`, and
fails with `OutputSliceWouldHaveSlop` otherwise. -/
theorem try_cast_slice_size_change (A B : TypeDesc) (a : Slice)
    (hal : a.addr % B.align = 0) (hsz : A.size ≠ B.size) :
    ((A.size = 0 ∨ B.size = 0) →
      try_cast_slice A B a = Except.error PodCastError.SizeMismatch ∧
      try_cast_slice_mut A B a = Except.error PodCastError.SizeMismatch) ∧
    (A.size ≠ 0 → B.size ≠ 0 →
      (a.len * A.size % B.size = 0 →
        try_cast_slice A B a =
          Except.ok ⟨a.addr, a.len * A.size / B.size⟩ ∧
        try_cast_slice_mut A B a =
          Except.ok ⟨a.addr, a.len * A.size / B.size⟩) ∧
      (a.len * A.size % B.size ≠ 0 →
        try_cast_slice A B a =
          Except.error PodCastError.OutputSliceWouldHaveSlop ∧
        try_cast_slice_mut A B a =
          Except.error PodCastError.OutputSliceWouldHaveSlop)) := by
  have hA : ¬(B.align > A.align ∧ a.addr % B.align ≠ 0) :=
    fun h => h.2 hal
  have hS : ¬(B.size = A.size) := fun h => hsz h.symm
  constructor
  · intro hz
    constructor <;>
      simp only [try_cast_slice, try_cast_slice_mut, if_neg hA, if_neg hS,
        if_pos hz]
  · intro hA0 hB0
    have hz : ¬(A.size = 0 ∨ B.size = 0) := by
      rintro (h | h)
      · exact hA0 h
      · exact hB0 h
    constructor
    · intro hdiv
      constructor <;>
        simp only [try_cast_slice, try_cast_slice_mut, if_neg hA, if_neg hS,
          if_neg hz, if_pos hdiv]
    · intro hndiv
      constructor <;>
        simp only [try_cast_slice, try_cast_slice_mut, if_neg hA, if_neg hS,
          if_neg hz, if_neg hndiv]

/-- Witness for C1: 3 two-byte elements cast to 4-byte elements fail with
slop. -/
theorem try_cast_slice_size_change_witness :
    try_cast_slice ⟨2, 2⟩ ⟨4, 4⟩ ⟨0, 3⟩ =
      Except.error PodCastError.OutputSliceWouldHaveSlop := by
  have h := try_cast_slice_size_change ⟨2, 2⟩ ⟨4, 4⟩ ⟨0, 3⟩ (by decide)
    (by decide)
  exact ((h.2 (by decide) (by decide)).2 (by decide)).1

/-- C2 counterexample: at `T` with size 4, align 4 and the byte slice at
address 1 with length 3, the input is misaligned for `T`, yet the result is
`SizeMismatch`, not `TargetAlignmentGreaterAndInputNotAligned`: the length
check runs first. -/
theorem try_from_bytes_sizecheck_first_cex :
    (1 : Nat) % 4 ≠ 0 ∧
    try_from_bytes ⟨4, 4⟩ ⟨1, 3⟩ =
      Except.error PodCastError.SizeMismatch ∧
    try_from_bytes_mut ⟨4, 4⟩ ⟨1, 3⟩ =
      Except.error PodCastError.SizeMismatch :=
  ⟨by decide, rfl, rfl⟩

/-- C2 (amended): in `try_from_bytes` and `try_from_bytes_mut` the length
check takes priority: a slice whose length differs from `size T` yields
`SizeMismatch` even when it is also misaligned; the alignment error is
reported exactly when the length matches and the start address is
misaligned, since a matching length at an aligned address succeeds. -/
theorem try_from_bytes_check_order (T : TypeDesc) (s : Slice) :
    (s.len ≠ T.size →
      try_from_bytes T s = Except.error PodCastError.SizeMismatch ∧
      try_from_bytes_mut T s = Except.error PodCastError.SizeMismatch) ∧
    (s.len = T.size → s.addr % T.align ≠ 0 →
      try_from_bytes T s =
        Except.error PodCastError.TargetAlignmentGreaterAndInputNotAligned ∧
      try_from_bytes_mut T s =
        Except.error PodCastError.TargetAlignmentGreaterAndInputNotAligned) ∧
    (s.len = T.size → s.addr % T.align = 0 →
      try_from_bytes T s = Except.ok s.addr ∧
      try_from_bytes_mut T s = Except.ok s.addr) := by
  refine ⟨?_, ?_, ?_⟩
  · intro hlen
    constructor <;>
      simp only [try_from_bytes, try_from_bytes_mut, if_pos hlen]
  · intro hlen hmis
    have hlen' : ¬(s.len ≠ T.size) := fun h => h hlen
    constructor <;>
      simp only [try_from_bytes, try_from_bytes_mut, if_neg hlen',
        if_pos hmis]
  · intro hlen hal
    have hlen' : ¬(s.len ≠ T.size) := fun h => h hlen
    have hal' : ¬(s.addr % T.align ≠ 0) := fun h => h hal
    constructor <;>
      simp only [try_from_bytes, try_from_bytes_mut, if_neg hlen',
        if_neg hal']

/-- Witness for amended C2: with a matching length, a misaligned address
reports the alignment error and an aligned address succeeds. -/
theorem try_from_bytes_check_order_witness :
    try_from_bytes ⟨4, 4⟩ ⟨2, 4⟩ =
      Except.error PodCastError.TargetAlignmentGreaterAndInputNotAligned ∧
    try_from_bytes ⟨4, 4⟩ ⟨8, 4⟩ = Except.ok 8 :=
  ⟨((try_from_bytes_check_order ⟨4, 4⟩ ⟨2, 4⟩).2.1 rfl (by decide)).1,
   ((try_from_bytes_check_order ⟨4, 4⟩ ⟨8, 4⟩).2.2 rfl (by decide)).1⟩

/-- C3: in `try_cast_ref` and `try_cast_mut` the alignment check runs first:
with `align B > align A` and a misaligned address the result is the
alignment error whatever the sizes are; once the alignment condition
passes, equal sizes succeed at the same address and unequal sizes yield
`SizeMismatch`. -/
theorem try_cast_ref_alignment_priority (A B : TypeDesc) (addr : Nat) :
    (B.align > A.align → addr % B.align ≠ 0 →
      try_cast_ref A B addr =
        Except.error PodCastError.TargetAlignmentGreaterAndInputNotAligned ∧
      try_cast_mut A B addr =
        Except.error PodCastError.TargetAlignmentGreaterAndInputNotAligned) ∧
    (¬(B.align > A.align ∧ addr % B.align ≠ 0) →
      (A.size = B.size →
        try_cast_ref A B addr = Except.ok addr ∧
        try_cast_mut A B addr = Except.ok addr) ∧
      (A.size ≠ B.size →
        try_cast_ref A B addr = Except.error PodCastError.SizeMismatch ∧
        try_cast_mut A B addr = Except.error PodCastError.SizeMismatch)) := by
  constructor
  · intro h1 h2
    constructor <;>
      simp only [try_cast_ref, try_cast_mut, if_pos (And.intro h1 h2)]
  · intro hA
    constructor
    · intro hsz
      have hS : B.size = A.size := hsz.symm
      constructor <;>
        simp only [try_cast_ref, try_cast_mut, if_neg hA, if_pos hS]
    · intro hsz
      have hS : ¬(B.size = A.size) := fun h => hsz h.symm
      constructor <;>
        simp only [try_cast_ref, try_cast_mut, if_neg hA, if_neg hS]

/-- Witness for C3: same sizes, stricter target alignment, misaligned
address: the alignment error is reported, not `SizeMismatch`. -/
theorem try_cast_ref_alignment_priority_witness :
    try_cast_ref ⟨4, 4⟩ ⟨4, 8⟩ 4 =
      Except.error PodCastError.TargetAlignmentGreaterAndInputNotAligned :=
  ((try_cast_ref_alignment_priority ⟨4, 4⟩ ⟨4, 8⟩ 4).1 (by decide)
    (by decide)).1

/-- C4: every successful slice cast, whichever branch produced it, keeps
the start address and covers the same byte span. -/
theorem try_cast_slice_preserves_span (A B : TypeDesc) (a r : Slice) :
    (try_cast_slice A B a = Except.ok r →
      r.addr = a.addr ∧ a.len * A.size = r.len * B.size) ∧
    (try_cast_slice_mut A B a = Except.ok r →
      r.addr = a.addr ∧ a.len * A.size = r.len * B.size) := by
  constructor <;> intro h
  · unfold try_cast_slice at h
    split at h
    · exact absurd h (by simp)
    · split at h
      · rename_i hsz
        cases h
        exact ⟨rfl, by rw [hsz]⟩
      · split at h
        · exact absurd h (by simp)
        · split at h
          · rename_i hmod
            cases h
            refine ⟨rfl, ?_⟩
            exact (Nat.div_mul_cancel (Nat.dvd_of_mod_eq_zero hmod)).symm
          · exact absurd h (by simp)
  · unfold try_cast_slice_mut at h
    split at h
    · exact absurd h (by simp)
    · split at h
      · rename_i hsz
        cases h
        exact ⟨rfl, by rw [hsz]⟩
      · split at h
        · exact absurd h (by simp)
        · split at h
          · rename_i hmod
            cases h
            refine ⟨rfl, ?_⟩
            exact (Nat.div_mul_cancel (Nat.dvd_of_mod_eq_zero hmod)).symm
          · exact absurd h (by simp)

/-- Witness for C4: 4 two-byte elements cast to 2 four-byte elements keep
the address and the 8-byte span. -/
theorem try_cast_slice_preserves_span_witness :
    (0 : Nat) = 0 ∧ (4 : Nat) * 2 = 2 * 4 :=
  (try_cast_slice_preserves_span ⟨2, 2⟩ ⟨4, 4⟩ ⟨0, 4⟩ ⟨0, 2⟩).1 rfl

/-- C5: with equal element sizes and the alignment check passing, both
slice casts succeed with the input's address and length, for every length
including 0 and including zero-sized element types on both sides. -/
theorem try_cast_slice_same_size (A B : TypeDesc) (a : Slice)
    (hal : ¬(B.align > A.align ∧ a.addr % B.align ≠ 0))
    (hsz : A.size = B.size) :
    try_cast_slice A B a = Except.ok ⟨a.addr, a.len⟩ ∧
    try_cast_slice_mut A B a = Except.ok ⟨a.addr, a.len⟩ := by
  have hS : B.size = A.size := hsz.symm
  constructor <;>
    simp only [try_cast_slice, try_cast_slice_mut, if_neg hal, if_pos hS]

/-- Witness for C5: both element types zero-sized, length 5 preserved. -/
theorem try_cast_slice_same_size_witness :
    try_cast_slice ⟨0, 1⟩ ⟨0, 1⟩ ⟨7, 5⟩ = Except.ok ⟨7, 5⟩ :=
  (try_cast_slice_same_size ⟨0, 1⟩ ⟨0, 1⟩ ⟨7, 5⟩ (by decide) rfl).1

/-- C6: `try_cast` succeeds, returning the same byte pattern, exactly when
the sizes match, and fails with `SizeMismatch` otherwise; no address enters
the decision. -/
theorem try_cast_size_only (A B : TypeDesc) (v : List Nat) :
    (A.size = B.size → try_cast A B v = Except.ok v) ∧
    (A.size ≠ B.size →
      try_cast A B v = Except.error PodCastError.SizeMismatch) := by
  constructor
  · intro h
    simp only [try_cast, if_pos h]
  · intro h
    simp only [try_cast, if_neg h]

/-- Witness for C6: equal sizes succeed with the identical bit pattern. -/
theorem try_cast_size_only_witness :
    try_cast ⟨4, 4⟩ ⟨4, 8⟩ [1, 2, 3, 4] = Except.ok [1, 2, 3, 4] :=
  (try_cast_size_only ⟨4, 4⟩ ⟨4, 8⟩ [1, 2, 3, 4]).1 rfl

/-- Casting the one-element slice `from_ref(t)` to bytes always succeeds
for a non-zero-sized `T`, with one byte per byte of `T`. -/
theorem cast_slice_from_ref_bytes (T : TypeDesc) (addr : Nat)
    (hT : T.size ≠ 0) :
    try_cast_slice T byteDesc ⟨addr, 1⟩ = Except.ok ⟨addr, T.size⟩ := by
  have hA : ¬(byteDesc.align > T.align ∧
      (Slice.mk addr 1).addr % byteDesc.align ≠ 0) := by
    rintro ⟨-, h2⟩
    exact h2 (Nat.mod_one addr)
  unfold try_cast_slice
  rw [if_neg hA]
  by_cases h1 : byteDesc.size = T.size
  · rw [if_pos h1, ← h1]
    rfl
  · have hz : ¬(T.size = 0 ∨ byteDesc.size = 0) := by
      rintro (h | h)
      · exact hT h
      · exact absurd h (by decide)
    have hmod : (Slice.mk addr 1).len * T.size % byteDesc.size = 0 :=
      Nat.mod_one _
    rw [if_neg h1, if_neg hz, if_pos hmod]
    simp [byteDesc]

/-- Mutable version of `cast_slice_from_ref_bytes`. -/
theorem cast_slice_mut_from_ref_bytes (T : TypeDesc) (addr : Nat)
    (hT : T.size ≠ 0) :
    try_cast_slice_mut T byteDesc ⟨addr, 1⟩ = Except.ok ⟨addr, T.size⟩ := by
  have hA : ¬(byteDesc.align > T.align ∧
      (Slice.mk addr 1).addr % byteDesc.align ≠ 0) := by
    rintro ⟨-, h2⟩
    exact h2 (Nat.mod_one addr)
  unfold try_cast_slice_mut
  rw [if_neg hA]
  by_cases h1 : byteDesc.size = T.size
  · rw [if_pos h1, ← h1]
    rfl
  · have hz : ¬(T.size = 0 ∨ byteDesc.size = 0) := by
      rintro (h | h)
      · exact hT h
      · exact absurd h (by decide)
    have hmod : (Slice.mk addr 1).len * T.size % byteDesc.size = 0 :=
      Nat.mod_one _
    rw [if_neg h1, if_neg hz, if_pos hmod]
    simp [byteDesc]

/-- Evaluation of `bytes_of`: the ZST arm returns the literal empty slice,
and the non-ZST arm always lands in an `Ok` of `try_cast_slice`. -/
theorem bytes_of_eval (T : TypeDesc) (addr : Nat) :
    bytes_of T addr =
      if T.size = 0 then Except.ok ⟨1, 0⟩ else Except.ok ⟨addr, T.size⟩ := by
  by_cases hT : T.size = 0
  · simp [bytes_of, hT]
  · simp only [bytes_of, if_neg hT, cast_slice_from_ref_bytes T addr hT]

/-- Evaluation of `bytes_of_mut`: same result as `bytes_of`. -/
theorem bytes_of_mut_eval (T : TypeDesc) (addr : Nat) :
    bytes_of_mut T addr =
      if T.size = 0 then Except.ok ⟨1, 0⟩ else Except.ok ⟨addr, T.size⟩ := by
  by_cases hT : T.size = 0
  · simp [bytes_of_mut, hT]
  · simp only [bytes_of_mut, if_neg hT, cast_slice_mut_from_ref_bytes T addr hT]

/-- C7: `bytes_of` and `bytes_of_mut` never fail: a zero-sized source type
yields the directly-built empty byte view (length 0, at the dangling
alignment-1 address, independent of the input address), and a non-zero-sized
source of size `n` yields the successful slice-cast view of length `n` at
the input address. -/
theorem bytes_of_total (T : TypeDesc) (addr : Nat) :
    (T.size = 0 →
      bytes_of T addr = Except.ok ⟨1, 0⟩ ∧
      bytes_of_mut T addr = Except.ok ⟨1, 0⟩) ∧
    (T.size ≠ 0 →
      bytes_of T addr = Except.ok ⟨addr, T.size⟩ ∧
      bytes_of_mut T addr = Except.ok ⟨addr, T.size⟩) := by
  constructor
  · intro h
    rw [bytes_of_eval, bytes_of_mut_eval]
    simp [h]
  · intro h
    rw [bytes_of_eval, bytes_of_mut_eval]
    simp [h]

/-- Witness for C7: a 4-byte type at address 12 yields the 4-byte view
there. -/
theorem bytes_of_total_witness :
    bytes_of ⟨4, 4⟩ 12 = Except.ok ⟨12, 4⟩ :=
  ((bytes_of_total ⟨4, 4⟩ 12).2 (by decide)).1

/-- C8: each panicking entry point agrees with its try counterpart: the
success projections coincide, so the panicking form returns exactly the
values the try form returns and panics exactly where the try form errors. -/
theorem panicking_matches_try (A B T : TypeDesc) (v : List Nat)
    (addr : Nat) (s t u : Slice) :
    toOk (cast A B v) = toOk (try_cast A B v) ∧
    toOk (cast_ref A B addr) = toOk (try_cast_ref A B addr) ∧
    toOk (cast_mut A B addr) = toOk (try_cast_mut A B addr) ∧
    toOk (cast_slice A B s) = toOk (try_cast_slice A B s) ∧
    toOk (cast_slice_mut A B t) = toOk (try_cast_slice_mut A B t) ∧
    toOk (from_bytes T u) = toOk (try_from_bytes T u) ∧
    toOk (from_bytes_mut T u) = toOk (try_from_bytes_mut T u) := by
  refine ⟨?_, ?_, ?_, ?_, ?_, ?_, ?_⟩
  · unfold cast try_cast
    split <;> rfl
  · unfold cast_ref
    split <;> (cases h : try_cast_ref A B addr <;> simp [h, toOk])
  · unfold cast_mut
    split <;> (cases h : try_cast_mut A B addr <;> simp [h, toOk])
  · unfold cast_slice
    cases h : try_cast_slice A B s <;> simp [h, toOk]
  · unfold cast_slice_mut
    cases h : try_cast_slice_mut A B t <;> simp [h, toOk]
  · unfold from_bytes
    cases h : try_from_bytes T u <;> simp [h, toOk]
  · unfold from_bytes_mut
    cases h : try_from_bytes_mut T u <;> simp [h, toOk]

/-- The only errors `try_cast` produces. -/
theorem try_cast_error_cases (A B : TypeDesc) (v : List Nat)
    (e : PodCastError) (h : try_cast A B v = Except.error e) :
    e = PodCastError.SizeMismatch := by
  unfold try_cast at h
  split at h
  · exact absurd h (by simp)
  · cases h
    rfl

/-- The only errors `try_cast_ref` produces. -/
theorem try_cast_ref_error_cases (A B : TypeDesc) (addr : Nat)
    (e : PodCastError) (h : try_cast_ref A B addr = Except.error e) :
    e = PodCastError.TargetAlignmentGreaterAndInputNotAligned ∨
    e = PodCastError.SizeMismatch := by
  unfold try_cast_ref at h
  split at h
  · cases h
    exact Or.inl rfl
  · split at h
    · exact absurd h (by simp)
    · cases h
      exact Or.inr rfl

/-- The only errors `try_cast_mut` produces. -/
theorem try_cast_mut_error_cases (A B : TypeDesc) (addr : Nat)
    (e : PodCastError) (h : try_cast_mut A B addr = Except.error e) :
    e = PodCastError.TargetAlignmentGreaterAndInputNotAligned ∨
    e = PodCastError.SizeMismatch := by
  unfold try_cast_mut at h
  split at h
  · cases h
    exact Or.inl rfl
  · split at h
    · exact absurd h (by simp)
    · cases h
      exact Or.inr rfl

/-- The only errors `try_cast_slice` produces. -/
theorem try_cast_slice_error_cases (A B : TypeDesc) (a : Slice)
    (e : PodCastError) (h : try_cast_slice A B a = Except.error e) :
    e = PodCastError.TargetAlignmentGreaterAndInputNotAligned ∨
    e = PodCastError.SizeMismatch ∨
    e = PodCastError.OutputSliceWouldHaveSlop := by
  unfold try_cast_slice at h
  split at h
  · cases h
    exact Or.inl rfl
  · split at h
    · exact absurd h (by simp)
    · split at h
      · cases h
        exact Or.inr (Or.inl rfl)
      · split at h
        · exact absurd h (by simp)
        · cases h
          exact Or.inr (Or.inr rfl)

/-- The only errors `try_cast_slice_mut` produces. -/
theorem try_cast_slice_mut_error_cases (A B : TypeDesc) (a : Slice)
    (e : PodCastError) (h : try_cast_slice_mut A B a = Except.error e) :
    e = PodCastError.TargetAlignmentGreaterAndInputNotAligned ∨
    e = PodCastError.SizeMismatch ∨
    e = PodCastError.OutputSliceWouldHaveSlop := by
  unfold try_cast_slice_mut at h
  split at h
  · cases h
    exact Or.inl rfl
  · split at h
    · exact absurd h (by simp)
    · split at h
      · cases h
        exact Or.inr (Or.inl rfl)
      · split at h
        · exact absurd h (by simp)
        · cases h
          exact Or.inr (Or.inr rfl)

/-- The only errors `try_from_bytes` produces. -/
theorem try_from_bytes_error_cases (T : TypeDesc) (s : Slice)
    (e : PodCastError) (h : try_from_bytes T s = Except.error e) :
    e = PodCastError.SizeMismatch ∨
    e = PodCastError.TargetAlignmentGreaterAndInputNotAligned := by
  unfold try_from_bytes at h
  split at h
  · cases h
    exact Or.inl rfl
  · split at h
    · cases h
      exact Or.inr rfl
    · exact absurd h (by simp)

/-- The only errors `try_from_bytes_mut` produces. -/
theorem try_from_bytes_mut_error_cases (T : TypeDesc) (s : Slice)
    (e : PodCastError) (h : try_from_bytes_mut T s = Except.error e) :
    e = PodCastError.SizeMismatch ∨
    e = PodCastError.TargetAlignmentGreaterAndInputNotAligned := by
  unfold try_from_bytes_mut at h
  split at h
  · cases h
    exact Or.inl rfl
  · split at h
    · cases h
      exact Or.inr rfl
    · exact absurd h (by simp)

/-- C9: no core operation, try or panicking, ever reports
`AlignmentMismatch`. -/
theorem no_alignment_mismatch (A B T : TypeDesc) (v : List Nat)
    (addr : Nat) (s t u : Slice) :
    isErrAlignmentMismatch (try_cast A B v) = false ∧
    isErrAlignmentMismatch (try_cast_ref A B addr) = false ∧
    isErrAlignmentMismatch (try_cast_mut A B addr) = false ∧
    isErrAlignmentMismatch (try_cast_slice A B s) = false ∧
    isErrAlignmentMismatch (try_cast_slice_mut A B t) = false ∧
    isErrAlignmentMismatch (try_from_bytes T u) = false ∧
    isErrAlignmentMismatch (try_from_bytes_mut T u) = false ∧
    panicsAlignmentMismatch (cast A B v) = false ∧
    panicsAlignmentMismatch (cast_ref A B addr) = false ∧
    panicsAlignmentMismatch (cast_mut A B addr) = false ∧
    panicsAlignmentMismatch (cast_slice A B s) = false ∧
    panicsAlignmentMismatch (cast_slice_mut A B t) = false ∧
    panicsAlignmentMismatch (from_bytes T u) = false ∧
    panicsAlignmentMismatch (from_bytes_mut T u) = false := by
  refine ⟨?_, ?_, ?_, ?_, ?_, ?_, ?_, ?_, ?_, ?_, ?_, ?_, ?_, ?_⟩
  · cases h : try_cast A B v
    · rw [try_cast_error_cases A B v _ h]
      rfl
    · rfl
  · cases h : try_cast_ref A B addr
    · rcases try_cast_ref_error_cases A B addr _ h with h1 | h1 <;>
        (rw [h1]; rfl)
    · rfl
  · cases h : try_cast_mut A B addr
    · rcases try_cast_mut_error_cases A B addr _ h with h1 | h1 <;>
        (rw [h1]; rfl)
    · rfl
  · cases h : try_cast_slice A B s
    · rcases try_cast_slice_error_cases A B s _ h with h1 | h1 | h1 <;>
        (rw [h1]; rfl)
    · rfl
  · cases h : try_cast_slice_mut A B t
    · rcases try_cast_slice_mut_error_cases A B t _ h with h1 | h1 | h1 <;>
        (rw [h1]; rfl)
    · rfl
  · cases h : try_from_bytes T u
    · rcases try_from_bytes_error_cases T u _ h with h1 | h1 <;>
        (rw [h1]; rfl)
    · rfl
  · cases h : try_from_bytes_mut T u
    · rcases try_from_bytes_mut_error_cases T u _ h with h1 | h1 <;>
        (rw [h1]; rfl)
    · rfl
  · unfold cast
    split
    · rfl
    · rfl
  · unfold cast_ref
    split
    · cases h : try_cast_ref A B addr <;> simp [panicsAlignmentMismatch]
    · cases h : try_cast_ref A B addr
      · rename_i e
        rcases try_cast_ref_error_cases A B addr e h with h1 | h1 <;>
          (subst h1; simp [panicsAlignmentMismatch])
      · simp [panicsAlignmentMismatch]
  · unfold cast_mut
    split
    · cases h : try_cast_mut A B addr <;> simp [panicsAlignmentMismatch]
    · cases h : try_cast_mut A B addr
      · rename_i e
        rcases try_cast_mut_error_cases A B addr e h with h1 | h1 <;>
          (subst h1; simp [panicsAlignmentMismatch])
      · simp [panicsAlignmentMismatch]
  · unfold cast_slice
    cases h : try_cast_slice A B s
    · rename_i e
      rcases try_cast_slice_error_cases A B s e h with h1 | h1 | h1 <;>
        (subst h1; simp [panicsAlignmentMismatch])
    · simp [panicsAlignmentMismatch]
  · unfold cast_slice_mut
    cases h : try_cast_slice_mut A B t
    · rename_i e
      rcases try_cast_slice_mut_error_cases A B t e h with h1 | h1 | h1 <;>
        (subst h1; simp [panicsAlignmentMismatch])
    · simp [panicsAlignmentMismatch]
  · unfold from_bytes
    cases h : try_from_bytes T u
    · rename_i e
      rcases try_from_bytes_error_cases T u e h with h1 | h1 <;>
        (subst h1; simp [panicsAlignmentMismatch])
    · simp [panicsAlignmentMismatch]
  · unfold from_bytes_mut
    cases h : try_from_bytes_mut T u
    · rename_i e
      rcases try_from_bytes_mut_error_cases T u e h with h1 | h1 <;>
        (subst h1; simp [panicsAlignmentMismatch])
    · simp [panicsAlignmentMismatch]

/-- On the reference-cast fast path (equal sizes and `align A ≥ align B`)
`try_cast_ref` always succeeds, so the fast path's `Err` arm is dead. -/
theorem try_cast_ref_fast_path (A B : TypeDesc) (addr : Nat)
    (h1 : A.size = B.size) (h2 : B.align ≤ A.align) :
    try_cast_ref A B addr = Except.ok addr := by
  have hA : ¬(B.align > A.align ∧ addr % B.align ≠ 0) :=
    fun h => absurd h.1 (not_lt.mpr h2)
  unfold try_cast_ref
  rw [if_neg hA, if_pos h1.symm]

/-- On the fast path `try_cast_mut` always succeeds as well. -/
theorem try_cast_mut_fast_path (A B : TypeDesc) (addr : Nat)
    (h1 : A.size = B.size) (h2 : B.align ≤ A.align) :
    try_cast_mut A B addr = Except.ok addr := by
  have hA : ¬(B.align > A.align ∧ addr % B.align ≠ 0) :=
    fun h => absurd h.1 (not_lt.mpr h2)
  unfold try_cast_mut
  rw [if_neg hA, if_pos h1.symm]

/-- C10: totality under the stated guards: the `%`/`/` by `size B` in the
slice casts are only reached with `size B` nonzero, and no `unreachable!()`
arm in `bytes_of`, `bytes_of_mut`, `cast_ref`, or `cast_mut` can fire. -/
theorem total_under_guards (A B T : TypeDesc) (addr : Nat) (a : Slice) :
    (reachesDivisionBranch A B a → 0 < B.size) ∧
    hitUnreachableArm (bytes_of T addr) = false ∧
    hitUnreachableArm (bytes_of_mut T addr) = false ∧
    hitUnreachableArm (cast_ref A B addr) = false ∧
    hitUnreachableArm (cast_mut A B addr) = false := by
  refine ⟨?_, ?_, ?_, ?_, ?_⟩
  · rintro ⟨-, -, hz⟩
    rcases Nat.eq_zero_or_pos B.size with h | h
    · exact absurd (Or.inr h) hz
    · exact h
  · rw [bytes_of_eval]
    split <;> rfl
  · rw [bytes_of_mut_eval]
    split <;> rfl
  · unfold cast_ref
    split
    · rename_i hc
      rw [try_cast_ref_fast_path A B addr hc.1 hc.2]
      rfl
    · cases h : try_cast_ref A B addr <;> rfl
  · unfold cast_mut
    split
    · rename_i hc
      rw [try_cast_mut_fast_path A B addr hc.1 hc.2]
      rfl
    · cases h : try_cast_mut A B addr <;> rfl

/-- Witness for C10: the division branch at 2-byte and 4-byte elements has
a positive divisor. -/
theorem total_under_guards_witness : (0 : Nat) < 4 :=
  (total_under_guards ⟨2, 2⟩ ⟨4, 4⟩ ⟨1, 1⟩ 0 ⟨0, 3⟩).1 (by decide)

end Bytemuck
